import Mathlib

/-!
Verification of the rustler ingestion and retrieval pipeline.

This file embeds the core logic of the repository in Lean 4:
the streaming upload validator and file-type registry
(src/utils/file_utils.rs), the upload extension resolution and the
archive extraction strategies (src/services/file_service.rs), the
health-check orchestration (src/services/health_service.rs), the
retrieval handler (src/controllers/file_controller.rs), and the
archive-type detector described by the design document (its body is
not part of the sources; it is modelled from the specification).
Theorems settle the specification claims against these definitions.
-/

namespace Rustler

/-- Decidable equality for Except values, used to evaluate the embedded
operations on concrete inputs. -/
instance {ε α : Type} [DecidableEq ε] [DecidableEq α] :
    DecidableEq (Except ε α) := fun a b =>
  match a, b with
  | .ok x, .ok y =>
    match decEq x y with
    | isTrue h => isTrue (by rw [h])
    | isFalse h => isFalse (fun hh => h (by cases hh; rfl))
  | .ok _, .error _ => isFalse (fun hh => by cases hh)
  | .error _, .ok _ => isFalse (fun hh => by cases hh)
  | .error x, .error y =>
    match decEq x y with
    | isTrue h => isTrue (by rw [h])
    | isFalse h => isFalse (fun hh => h (by cases hh; rfl))

/-- ASCII lowercasing of a single character, as Rust ASCII case folding
does: characters between A and Z are shifted into the lowercase range,
all other characters are unchanged. -/
def lowerAsciiChar (c : Char) : Char :=
  if 'A' ≤ c && c ≤ 'Z' then Char.ofNat (c.toNat + 32) else c

/-- ASCII lowercasing of a string, character by character. -/
def asciiLower (s : String) : String :=
  String.mk (s.data.map lowerAsciiChar)

/-- Embeds Rust eq_ignore_ascii_case on strings. -/
def eqIgnoreCase (a b : String) : Bool :=
  asciiLower a == asciiLower b

/-- Splitting a character list at every occurrence of a separator, with
Rust split semantics: the empty list yields one empty segment, and a
trailing separator yields a trailing empty segment. -/
def splitChars (sep : Char) : List Char → List (List Char)
  | [] => [[]]
  | c :: rest =>
    if c == sep then
      [] :: splitChars sep rest
    else
      match splitChars sep rest with
      | [] => [[c]]
      | seg :: segs => (c :: seg) :: segs

/-- Embeds the expression filename.split at the dot character followed by
last, with empty-string fallback, used by validate_extension
(src/utils/file_utils.rs line 74) and by upload_file
(src/services/file_service.rs line 66). -/
def lastDotSegment (s : String) : String :=
  String.mk (((splitChars '.' s.data).getLast?).getD [])

/-- Embeds Rust str::ends_with: the second string is a suffix of the
first. -/
def strEndsWith (s p : String) : Bool :=
  p.data.isSuffixOf s.data

/-- Embeds struct FileType (src/utils/file_utils.rs lines 16-22).
Bytes are modelled as natural numbers below 256; sizes as naturals. -/
structure FileType where
  name : String
  extensions : List String
  content_types : List String
  magic_numbers : List (List Nat)
  max_size : Nat
  deriving Repr, DecidableEq

/-- Embeds FileType::validate_extension (src/utils/file_utils.rs
lines 73-78): the segment after the last dot is compared, ASCII
case-insensitively, against each allowed extension. -/
def FileType.validate_extension (ft : FileType) (filename : String) : Bool :=
  ft.extensions.any (fun ext => eqIgnoreCase ext (lastDotSegment filename))

/-- Embeds FileType::validate_content_type (src/utils/file_utils.rs
lines 96-100). -/
def FileType.validate_content_type (ft : FileType) (content_type : String) : Bool :=
  ft.content_types.any (fun ct => eqIgnoreCase ct content_type)

/-- Embeds FileType::validate_magic_number (src/utils/file_utils.rs
lines 112-120): passes vacuously when no magic number is configured,
otherwise requires some configured magic number to be a prefix of the
data (the length test of the source is implied by the prefix test and
kept here verbatim). -/
def FileType.validate_magic_number (ft : FileType) (data : List Nat) : Bool :=
  if ft.magic_numbers.isEmpty then
    true
  else
    ft.magic_numbers.any (fun magic =>
      magic.length ≤ data.length && magic.isPrefixOf data)

/-- The validation error taxonomy produced by FileValidator::validate_file
(src/utils/file_utils.rs lines 189-251), one constructor per distinct
early return. -/
inductive ValidationError where
  | noFilename
  | unsupportedExtension
  | unsupportedContentType
  | payloadTooLarge
  | badSignature
  deriving Repr, DecidableEq

/-- The HTTP status code attached to each validation error in the source
(400 BAD_REQUEST, 415 UNSUPPORTED_MEDIA_TYPE, 413 PAYLOAD_TOO_LARGE). -/
def statusCodeOf : ValidationError → Nat
  | .noFilename => 400
  | .unsupportedExtension => 415
  | .unsupportedContentType => 415
  | .payloadTooLarge => 413
  | .badSignature => 415

/-- Embeds the chunk loop of validate_file (src/utils/file_utils.rs
lines 225-248): for each chunk the running total is bumped and checked
against max_size first; then the chunk is appended to the buffer, and
when the buffer length equals the chunk length (that is, all earlier
chunks were empty) the buffer is checked against the magic numbers. -/
def readChunks (ft : FileType) : List (List Nat) → Nat → List Nat →
    Except ValidationError (List Nat)
  | [], _, buffer => .ok buffer
  | chunk :: rest, total, buffer =>
    if ft.max_size < total + chunk.length then
      .error .payloadTooLarge
    else if (buffer ++ chunk).length == chunk.length &&
        !(ft.validate_magic_number (buffer ++ chunk)) then
      .error .badSignature
    else
      readChunks ft rest (total + chunk.length) (buffer ++ chunk)

/-- Embeds FileValidator::validate_file (src/utils/file_utils.rs
lines 189-251) for a resolved descriptor: filename presence, extension,
declared content type (absent treated as the empty string), then the
streaming loop. -/
def FileType.validate_file (ft : FileType) (filename : Option String)
    (contentType : Option String) (chunks : List (List Nat)) :
    Except ValidationError (List Nat) :=
  match filename with
  | none => .error .noFilename
  | some fname =>
    if !(ft.validate_extension fname) then
      .error .unsupportedExtension
    else if !(ft.validate_content_type (contentType.getD "")) then
      .error .unsupportedContentType
    else
      readChunks ft chunks 0 []

/-- The built-in ZIP descriptor (src/utils/file_utils.rs lines 142-148). -/
def zipFileType : FileType :=
  ⟨"ZIP", ["zip"], ["application/zip"], [[0x50, 0x4B, 0x03, 0x04]],
    100 * 1024 * 1024⟩

/-- The built-in PNG descriptor (src/utils/file_utils.rs lines 151-157). -/
def pngFileType : FileType :=
  ⟨"PNG", ["png"], ["image/png"],
    [[0x89, 0x50, 0x4E, 0x47, 0x0D, 0x0A, 0x1A, 0x0A]], 10 * 1024 * 1024⟩

/-- The built-in JPEG descriptor (src/utils/file_utils.rs lines 160-169). -/
def jpegFileType : FileType :=
  ⟨"JPEG", ["jpg", "jpeg"], ["image/jpeg"],
    [[0xFF, 0xD8, 0xFF, 0xE0], [0xFF, 0xD8, 0xFF, 0xE1]], 10 * 1024 * 1024⟩

/-- The registry contents after register_default_types
(src/utils/file_utils.rs lines 140-170). -/
def defaultFileTypes : List FileType :=
  [zipFileType, pngFileType, jpegFileType]

/-- Embeds FileValidator::find_file_type_by_extension
(src/utils/file_utils.rs lines 254-258): the first registered descriptor
whose validate_extension accepts the given string. -/
def find_file_type_by_extension (fts : List FileType) (extension : String) :
    Option FileType :=
  fts.find? (fun ft => ft.validate_extension extension)

/-- Embeds the extension resolution of upload_file
(src/services/file_service.rs lines 63-67): a name ending in .tar.gz is
mapped to the composite token, otherwise the lowercased segment after
the last dot is used. -/
def uploadExtension (file_name : String) : String :=
  if strEndsWith file_name ".tar.gz" then "tar.gz"
  else asciiLower (lastDotSegment file_name)

/-- Total byte length of a chunk stream. -/
def sumLen (chunks : List (List Nat)) : Nat :=
  (chunks.map List.length).sum

/-- All magic-number checks that the chunk loop can fire succeed: the
first chunk passes, and, whenever a chunk is empty, the check also
re-fires on the next chunk (the source fires the check whenever the
buffer so far is empty). -/
def magicChecksPass (ft : FileType) : List (List Nat) → Bool
  | [] => true
  | chunk :: rest =>
    ft.validate_magic_number chunk &&
      (if chunk.length == 0 then magicChecksPass ft rest else true)

/-- A descriptor with one magic number and a tiny size bound; used to
evaluate the validator's check order on concrete inputs. -/
def smallMagicType : FileType := ⟨"T", ["t"], ["ct"], [[5]], 2⟩

/-- A descriptor like smallMagicType but with room for four bytes. -/
def smallMagicType4 : FileType := ⟨"T4", ["t"], ["ct"], [[5]], 4⟩

/-- A descriptor registered under the plain gz extension. -/
def gzOnlyType : FileType := ⟨"GZ", ["gz"], [], [], 1⟩

/-- A descriptor registered under the compound tar.gz extension. -/
def tarGzType : FileType := ⟨"TGZ", ["tar.gz"], [], [], 1⟩

lemma sumLen_cons (c : List Nat) (rest : List (List Nat)) :
    sumLen (c :: rest) = c.length + sumLen rest := by
  simp [sumLen]

lemma readChunks_total_le (ft : FileType) :
    ∀ (chunks : List (List Nat)) (total : Nat) (buffer : List Nat),
      total + sumLen chunks ≤ ft.max_size →
      readChunks ft chunks total buffer ≠ .error .payloadTooLarge := by
  intro chunks
  induction chunks with
  | nil => intro total buffer _ h; simp [readChunks] at h
  | cons c rest ih =>
    intro total buffer h
    rw [sumLen_cons] at h
    rw [readChunks]
    split
    · next hlt => exfalso; omega
    · split
      · simp
      · exact ih (total + c.length) (buffer ++ c) (by omega)

lemma readChunks_take_error (ft : FileType) :
    ∀ (chunks : List (List Nat)) (n total : Nat) (buffer : List Nat)
      (e : ValidationError),
      readChunks ft (chunks.take n) total buffer = .error e →
      readChunks ft chunks total buffer = .error e := by
  intro chunks
  induction chunks with
  | nil => intro n total buffer e h; rw [List.take_nil] at h; exact h
  | cons c rest ih =>
    intro n total buffer e h
    match n with
    | 0 => rw [List.take_zero, readChunks] at h; exact absurd h (by simp)
    | Nat.succ m =>
      rw [List.take_succ_cons, readChunks] at h
      rw [readChunks]
      split at h
      · next hc => rw [if_pos hc]; exact h
      · next hc =>
        rw [if_neg hc]
        split at h
        · next hmg => rw [if_pos hmg]; exact h
        · next hmg => rw [if_neg hmg]; exact ih m _ _ _ h

lemma readChunks_exceed_cases (ft : FileType) :
    ∀ (chunks : List (List Nat)) (total : Nat) (buffer : List Nat),
      total ≤ ft.max_size → ft.max_size < total + sumLen chunks →
      readChunks ft chunks total buffer = .error .payloadTooLarge ∨
      readChunks ft chunks total buffer = .error .badSignature := by
  intro chunks
  induction chunks with
  | nil => intro total buffer hle hgt; simp [sumLen] at hgt; omega
  | cons c rest ih =>
    intro total buffer hle hgt
    rw [sumLen_cons] at hgt
    rw [readChunks]
    split
    · exact Or.inl rfl
    · next hc =>
      split
      · exact Or.inr rfl
      · exact ih (total + c.length) (buffer ++ c) (by omega) (by omega)

lemma readChunks_exceed_ptl (ft : FileType) :
    ∀ (chunks : List (List Nat)) (total : Nat) (buffer : List Nat),
      total ≤ ft.max_size → ft.max_size < total + sumLen chunks →
      (buffer = [] → magicChecksPass ft chunks = true) →
      readChunks ft chunks total buffer = .error .payloadTooLarge := by
  intro chunks
  induction chunks with
  | nil => intro total buffer hle hgt _; simp [sumLen] at hgt; omega
  | cons c rest ih =>
    intro total buffer hle hgt hmagic
    rw [sumLen_cons] at hgt
    rw [readChunks]
    split
    · rfl
    · next hc =>
      split
      · next hcond =>
        exfalso
        rw [Bool.and_eq_true] at hcond
        obtain ⟨hlen, hmg⟩ := hcond
        have hbuf : buffer = [] := by
          have hl : (buffer ++ c).length = c.length := by simpa using hlen
          rw [List.length_append] at hl
          exact List.length_eq_zero.mp (by omega)
        subst hbuf
        have hpass := hmagic rfl
        rw [magicChecksPass, Bool.and_eq_true] at hpass
        obtain ⟨h1, _⟩ := hpass
        rw [List.nil_append, h1] at hmg
        simp at hmg
      · next hcond =>
        refine ih (total + c.length) (buffer ++ c) (by omega) (by omega) ?_
        intro hbc
        obtain ⟨hb, hcnil⟩ := List.append_eq_nil.mp hbc
        subst hb; subst hcnil
        have hpass := hmagic rfl
        rw [magicChecksPass, Bool.and_eq_true] at hpass
        obtain ⟨_, h2⟩ := hpass
        simpa using h2

lemma readChunks_no_magic_no_badsig (ft : FileType)
    (hm : ft.magic_numbers = []) :
    ∀ (chunks : List (List Nat)) (total : Nat) (buffer : List Nat),
      readChunks ft chunks total buffer ≠ .error .badSignature := by
  intro chunks
  induction chunks with
  | nil => intro total buffer h; simp [readChunks] at h
  | cons c rest ih =>
    intro total buffer
    have hmg : ft.validate_magic_number (buffer ++ c) = true := by
      simp [FileType.validate_magic_number, hm]
    rw [readChunks]
    split
    · simp
    · rw [if_neg (by simp [hmg])]
      exact ih _ _

/-- Claim C6, as frozen, is false on the code: the size check runs
before the magic-number check only within one loop iteration, so a
first chunk that fits the limit but fails the signature check makes
validation fail with the signature error even though the cumulative
stream length exceeds the limit. Concretely, for a descriptor with
magic number 05 and 4-byte limit, the 5-byte stream split [1] then
[9,9,9,9] exceeds the limit yet is rejected as badSignature, not
payloadTooLarge. -/
theorem c6_counterexample :
    smallMagicType4.max_size < sumLen [[1], [9, 9, 9, 9]] ∧
    readChunks smallMagicType4 [[1], [9, 9, 9, 9]] 0 [] ≠
      .error .payloadTooLarge ∧
    readChunks smallMagicType4 [[1], [9, 9, 9, 9]] 0 [] =
      .error .badSignature := by
  refine ⟨by decide, by decide, by decide⟩

/-- Claim C6 (amended): a stream whose total length is at most
max_size is never rejected for size; a stream whose total length
exceeds max_size always fails, with payloadTooLarge unless a
magic-number check fired first, and with payloadTooLarge outright when
every magic-number check that can fire passes; moreover any error
verdict is already determined by the prefix of chunks consumed up to
it — the remainder of the stream is never consumed or buffered. -/
theorem c6_size_abort (ft : FileType) (chunks : List (List Nat)) :
    (sumLen chunks ≤ ft.max_size →
      readChunks ft chunks 0 [] ≠ .error .payloadTooLarge) ∧
    (ft.max_size < sumLen chunks →
      readChunks ft chunks 0 [] = .error .payloadTooLarge ∨
      readChunks ft chunks 0 [] = .error .badSignature) ∧
    (ft.max_size < sumLen chunks → magicChecksPass ft chunks = true →
      readChunks ft chunks 0 [] = .error .payloadTooLarge) ∧
    (∀ n e, readChunks ft (chunks.take n) 0 [] = .error e →
      readChunks ft chunks 0 [] = .error e) := by
  refine ⟨?_, ?_, ?_, ?_⟩
  · intro h; exact readChunks_total_le ft chunks 0 [] (by omega)
  · intro h; exact readChunks_exceed_cases ft chunks 0 [] (by omega) (by omega)
  · intro h hp
    exact readChunks_exceed_ptl ft chunks 0 [] (by omega) (by omega) (fun _ => hp)
  · intro n e h; exact readChunks_take_error ft chunks n 0 [] e h

/-- Witness for c6_size_abort: a two-chunk stream of total length 3
against a limit of 2 whose magic checks all pass is rejected with
payloadTooLarge. -/
theorem c6_size_abort_witness :
    (FileType.mk "W" ["w"] ["cw"] [] 2).max_size <
      sumLen [[1], [2, 3]] ∧
    magicChecksPass (FileType.mk "W" ["w"] ["cw"] [] 2) [[1], [2, 3]] = true ∧
    readChunks (FileType.mk "W" ["w"] ["cw"] [] 2) [[1], [2, 3]] 0 [] =
      .error .payloadTooLarge := by
  refine ⟨by decide, by decide,
    (c6_size_abort (FileType.mk "W" ["w"] ["cw"] [] 2) [[1], [2, 3]]).2.2.1
      (by decide) (by decide)⟩

/-- Claim C7, as frozen, is false on the code: within the first loop
iteration the size check runs before the magic-number check, so a
first chunk that exceeds max_size by itself yields payloadTooLarge
even though it also fails every configured signature; the descriptor
here has a magic number configured and extension and content type
both match. -/
theorem c7_counterexample :
    smallMagicType.magic_numbers ≠ [] ∧
    smallMagicType.validate_extension "a.t" = true ∧
    smallMagicType.validate_content_type "ct" = true ∧
    smallMagicType.validate_magic_number [9, 9, 9] = false ∧
    smallMagicType.validate_file (some "a.t") (some "ct") [[9, 9, 9]] =
      .error .payloadTooLarge := by
  refine ⟨by decide, by decide, by decide, by decide, by decide⟩

/-- Claim C7 (amended): for a descriptor with at least one magic
number, a stream whose first chunk does not start with any configured
signature and does not by itself exceed max_size fails with
badSignature even when extension and declared content type both match;
a descriptor with no magic numbers passes the signature check on all
data and its streams are never rejected with badSignature. -/
theorem c7_magic_gate (ft : FileType) (fname : String) (ct : Option String)
    (c : List Nat) (rest : List (List Nat)) :
    (ft.validate_extension fname = true →
      ft.validate_content_type (ct.getD "") = true →
      ft.validate_magic_number c = false →
      c.length ≤ ft.max_size →
      ft.validate_file (some fname) ct (c :: rest) = .error .badSignature) ∧
    (ft.magic_numbers = [] → ∀ data, ft.validate_magic_number data = true) ∧
    (ft.magic_numbers = [] → ∀ chunks total buffer,
      readChunks ft chunks total buffer ≠ .error .badSignature) := by
  refine ⟨?_, ?_, ?_⟩
  · intro hext hct hmg hlen
    have h1 : ¬ ft.max_size < 0 + c.length := by omega
    simp [FileType.validate_file, hext, hct, readChunks, h1, hmg]
    omega
  · intro hm data; simp [FileType.validate_magic_number, hm]
  · intro hm; exact readChunks_no_magic_no_badsig ft hm

/-- Witness for c7_magic_gate: the descriptor with magic number 05 and
2-byte limit rejects the matching-extension, matching-content-type
stream [1,2] with badSignature. -/
theorem c7_magic_gate_witness :
    smallMagicType.validate_file (some "a.t") (some "ct") [[1, 2]] =
      .error .badSignature :=
  (c7_magic_gate smallMagicType "a.t" (some "ct") [1, 2] []).1
    (by decide) (by decide) (by decide) (by decide)

/-- Claim C8 (confirmed): validate_file rejects, with the
unsupported-extension error carrying status 415, any filename whose
last dot segment matches no descriptor extension ASCII
case-insensitively; the check runs before content type and stream are
examined. For the PNG descriptor, IMG.PNG passes the extension check
and img.png.bak is rejected whatever the content type and stream. -/
theorem c8_extension_gate (ft : FileType) (fname : String)
    (ct : Option String) (chunks : List (List Nat)) :
    (ft.extensions.any (fun e => eqIgnoreCase e (lastDotSegment fname)) = false →
      ft.validate_file (some fname) ct chunks = .error .unsupportedExtension) ∧
    pngFileType.validate_extension "IMG.PNG" = true ∧
    pngFileType.validate_file (some "img.png.bak") ct chunks =
      .error .unsupportedExtension ∧
    statusCodeOf .unsupportedExtension = 415 := by
  refine ⟨?_, by decide, ?_, rfl⟩
  · intro h
    simp [FileType.validate_file, show ft.validate_extension fname = false from h]
  · have h : pngFileType.validate_extension "img.png.bak" = false := by decide
    simp [FileType.validate_file, h]

/-- Witness for c8_extension_gate: the PNG descriptor rejects
img.png.bak with the unsupported-extension error. -/
theorem c8_extension_gate_witness :
    pngFileType.extensions.any
      (fun e => eqIgnoreCase e (lastDotSegment "img.png.bak")) = false ∧
    pngFileType.validate_file (some "img.png.bak") none [] =
      .error .unsupportedExtension :=
  ⟨by decide, (c8_extension_gate pngFileType "img.png.bak" none []).1 (by decide)⟩

/-- Claim C10 (confirmed): no built-in descriptor accepts the empty
content type, which is what an absent declared content type is treated
as; hence, for any built-in descriptor, an upload whose filename
passes the extension check but declares no content type fails with the
content-type error, and for any upload with no declared content type
the verdict is an error that does not depend on the stream — no
stream bytes are consumed. -/
theorem c10_absent_content_type (ft : FileType) (fnameOpt : Option String)
    (fname : String) (chunks : List (List Nat)) :
    (defaultFileTypes.all (fun t => !(t.validate_content_type "")) = true) ∧
    (ft ∈ defaultFileTypes → ft.validate_extension fname = true →
      ft.validate_file (some fname) none chunks =
        .error .unsupportedContentType) ∧
    (ft ∈ defaultFileTypes →
      ft.validate_file fnameOpt none chunks =
        ft.validate_file fnameOpt none [] ∧
      ∃ e, ft.validate_file fnameOpt none chunks = .error e) := by
  have hct : ∀ t ∈ defaultFileTypes, t.validate_content_type "" = false := by
    intro t ht; fin_cases ht <;> decide
  refine ⟨by decide, ?_, ?_⟩
  · intro hmem hext
    simp [FileType.validate_file, hext, hct ft hmem]
  · intro hmem
    match fnameOpt with
    | none => exact ⟨rfl, .noFilename, rfl⟩
    | some f =>
      by_cases hext : ft.validate_extension f = true
      · refine ⟨?_, .unsupportedContentType, ?_⟩ <;>
          simp [FileType.validate_file, hext, hct ft hmem]
      · have hext2 : ft.validate_extension f = false := by simpa using hext
        refine ⟨?_, .unsupportedExtension, ?_⟩ <;>
          simp [FileType.validate_file, hext2]

/-- Witness for c10_absent_content_type: the ZIP descriptor rejects a
zip-named upload with no declared content type with the content-type
error, without touching the stream. -/
theorem c10_absent_content_type_witness :
    zipFileType ∈ defaultFileTypes ∧
    zipFileType.validate_extension "a.zip" = true ∧
    zipFileType.validate_file (some "a.zip") none [[1, 2, 3]] =
      .error .unsupportedContentType :=
  ⟨by simp [defaultFileTypes], by decide,
    (c10_absent_content_type zipFileType (some "a.zip") "a.zip" [[1, 2, 3]]).2.1
      (by simp [defaultFileTypes]) (by decide)⟩

/-- Claim C3, as frozen, is false on the code: the upload path does
resolve a .tar.gz filename to the token tar.gz, but
find_file_type_by_extension feeds that token back through
validate_extension, which re-splits it at dots and compares only the
trailing segment gz; a registry whose only descriptor carries the
extension tar.gz does not match the token, while a registry whose only
descriptor carries the extension gz does. -/
theorem c3_counterexample :
    uploadExtension "bundle.tar.gz" = "tar.gz" ∧
    find_file_type_by_extension [tarGzType] "tar.gz" = none ∧
    find_file_type_by_extension [gzOnlyType] "tar.gz" = some gzOnlyType := by
  refine ⟨by decide, by decide, by decide⟩

/-- Claim C3 (amended): the upload path maps any filename ending in
.tar.gz to the composite token tar.gz, but the registry lookup matches
a descriptor against that token by comparing the descriptor's
extension set with the token's trailing dot segment gz alone, ASCII
case-insensitively — not with the whole token. -/
theorem c3_tar_gz_token (name : String) (ft : FileType) :
    (strEndsWith name ".tar.gz" = true → uploadExtension name = "tar.gz") ∧
    ft.validate_extension "tar.gz" =
      ft.extensions.any (fun e => eqIgnoreCase e "gz") := by
  constructor
  · intro h; rw [uploadExtension, if_pos h]
  · rw [FileType.validate_extension,
      show lastDotSegment "tar.gz" = "gz" from by decide]

/-- Witness for c3_tar_gz_token at the filename a.tar.gz and the
descriptor registered under gz. -/
theorem c3_tar_gz_token_witness :
    uploadExtension "a.tar.gz" = "tar.gz" ∧
    gzOnlyType.validate_extension "tar.gz" =
      gzOnlyType.extensions.any (fun e => eqIgnoreCase e "gz") :=
  ⟨(c3_tar_gz_token "a.tar.gz" gzOnlyType).1 (by decide),
    (c3_tar_gz_token "a.tar.gz" gzOnlyType).2⟩

/-- A path component. Archive entry names and filesystem paths are
modelled as lists of components; normal components carry a name,
the others are the traversal and anchor components that a hostile
archive can embed. -/
inductive Component where
  | normal (s : String)
  | parentDir
  | curDir
  | rootDir
  deriving Repr, DecidableEq

/-- Whether a component is a plain name. -/
def Component.isNormal : Component → Bool
  | .normal _ => true
  | _ => false

/-- Modelled from the spec: the entry-name sanitization applied at
src/services/file_service.rs line 220 is the zip crate's mangled_name,
whose body is not part of the repository sources; the spec requires
path-traversal components (dot-dot, absolute prefixes) to be rejected
or neutralized before joining. The sanitizer keeps only normal
components, dropping parent-dir, current-dir and root components. -/
def mangledName (entry : List Component) : List Component :=
  entry.filter Component.isNormal

/-- One step of path resolution: a normal component descends, a
parent-dir component pops the last component, a current-dir component
is ignored, and a root component restarts at the root. -/
def resolveStep (acc : List Component) : Component → List Component
  | .normal s => acc ++ [.normal s]
  | .parentDir => acc.dropLast
  | .curDir => acc
  | .rootDir => [.rootDir]

/-- Path resolution: the folder a path denotes once traversal
components are interpreted. -/
def resolve (p : List Component) : List Component :=
  p.foldl resolveStep []

/-- The path p sits under the directory D syntactically: D is a prefix
of p and everything after it is a plain name. -/
def underDir (D p : List Component) : Bool :=
  D.isPrefixOf p && (p.drop D.length).all Component.isNormal

/-- The per-entry outcomes of one zip-archive entry in the extraction
loop of download_and_extract_zip (src/services/file_service.rs
lines 211-243): whether by_index succeeds, whether the entry is a
directory, its embedded name, and whether creating and copying the
output succeed. -/
structure ZEntry where
  readOk : Bool
  isDir : Bool
  name : List Component
  createOk : Bool
  copyOk : Bool
  deriving Repr, DecidableEq

/-- The environment of one download_and_extract_zip run: the outcome of
each fallible step, in the order the source performs them
(src/services/file_service.rs lines 141-254). -/
structure ZipEnv where
  downloadOk : Bool
  createDirOk : Bool
  createTempOk : Bool
  writeOk : Bool
  openOk : Bool
  archiveOk : Bool
  entries : List ZEntry
  removeOk : Bool
  deriving Repr, DecidableEq

/-- Observable outcome of a download_and_extract_zip run: the returned
result, whether the temporary file was created, whether its deletion
was attempted, and every output path the entry loop targeted with a
filesystem write (directory creation or file creation). -/
structure ZipRunState where
  result : Except Unit (List (List Component))
  tempCreated : Bool
  removeAttempted : Bool
  touched : List (List Component)
  deriving Repr, DecidableEq

/-- Embeds the entry loop of download_and_extract_zip
(src/services/file_service.rs lines 211-243): entries that fail to
read are skipped; each remaining entry is joined under the output
directory through mangledName; directory entries are created; file
entries whose create and copy both succeed are appended to the result,
and any create or copy failure skips the entry without aborting.
Returns the extracted-files list and the touched-paths list. -/
def extractLoop (outputDir : List Component) :
    List ZEntry → List (List Component) × List (List Component)
  | [] => ([], [])
  | e :: rest =>
    if !e.readOk then extractLoop outputDir rest
    else if e.isDir then
      ((extractLoop outputDir rest).1,
        (outputDir ++ mangledName e.name) :: (extractLoop outputDir rest).2)
    else if !e.createOk then
      ((extractLoop outputDir rest).1,
        (outputDir ++ mangledName e.name) :: (extractLoop outputDir rest).2)
    else if !e.copyOk then
      ((extractLoop outputDir rest).1,
        (outputDir ++ mangledName e.name) :: (extractLoop outputDir rest).2)
    else
      ((outputDir ++ mangledName e.name) :: (extractLoop outputDir rest).1,
        (outputDir ++ mangledName e.name) :: (extractLoop outputDir rest).2)

/-- Embeds the control flow of download_and_extract_zip
(src/services/file_service.rs lines 141-254): download, output
directory creation, temp-file creation, write, re-open, archive parse,
entry loop, then best-effort removal of the temp file; each failure
before the loop returns the error at once. -/
def runZip (env : ZipEnv) (outputDir : List Component) : ZipRunState :=
  if !env.downloadOk then ⟨.error (), false, false, []⟩
  else if !env.createDirOk then ⟨.error (), false, false, []⟩
  else if !env.createTempOk then ⟨.error (), false, false, []⟩
  else if !env.writeOk then ⟨.error (), true, false, []⟩
  else if !env.openOk then ⟨.error (), true, false, []⟩
  else if !env.archiveOk then ⟨.error (), true, false, []⟩
  else
    ⟨.ok (extractLoop outputDir env.entries).1, true, true,
      (extractLoop outputDir env.entries).2⟩

/-- The environment of one download_and_extract_tar_gz run
(src/services/file_service.rs lines 265-339), in source order:
output directory creation, download, temp-file creation, write,
spawning the tar command, its exit status, and temp-file removal. -/
structure TarEnv where
  createDirOk : Bool
  downloadOk : Bool
  createTempOk : Bool
  writeOk : Bool
  spawnOk : Bool
  exitOk : Bool
  removeOk : Bool
  deriving Repr, DecidableEq

/-- Observable outcome of a download_and_extract_tar_gz run. -/
structure TarRunState where
  result : Except Unit (List String)
  tempCreated : Bool
  removeAttempted : Bool
  deriving Repr, DecidableEq

/-- Embeds the control flow of download_and_extract_tar_gz
(src/services/file_service.rs lines 265-339): directory creation,
download, temp-file creation, write, tar invocation and exit check,
then best-effort removal of the temp file and the synthetic
single-marker result. -/
def runTar (env : TarEnv) : TarRunState :=
  if !env.createDirOk then ⟨.error (), false, false⟩
  else if !env.downloadOk then ⟨.error (), false, false⟩
  else if !env.createTempOk then ⟨.error (), false, false⟩
  else if !env.writeOk then ⟨.error (), true, false⟩
  else if !env.spawnOk then ⟨.error (), true, false⟩
  else if !env.exitOk then ⟨.error (), true, false⟩
  else ⟨.ok ["Extracted files successfully."], true, true⟩

lemma foldl_resolveStep_normal :
    ∀ (m acc : List Component), m.all Component.isNormal = true →
      List.foldl resolveStep acc m = acc ++ m := by
  intro m
  induction m with
  | nil => intro acc _; simp
  | cons c m' ih =>
    intro acc h
    rw [List.all_cons, Bool.and_eq_true] at h
    obtain ⟨hc, hm'⟩ := h
    match c with
    | .normal s =>
      rw [List.foldl_cons,
        show resolveStep acc (Component.normal s) = acc ++ [Component.normal s]
          from rfl,
        ih (acc ++ [Component.normal s]) hm']
      simp
    | .parentDir => simp [Component.isNormal] at hc
    | .curDir => simp [Component.isNormal] at hc
    | .rootDir => simp [Component.isNormal] at hc

lemma mangledName_all_normal (n : List Component) :
    (mangledName n).all Component.isNormal = true := by
  rw [mangledName, List.all_eq_true]
  intro x hx
  exact (List.mem_filter.mp hx).2

lemma underDir_append (D m : List Component)
    (hm : m.all Component.isNormal = true) : underDir D (D ++ m) = true := by
  rw [underDir, Bool.and_eq_true]
  refine ⟨List.isPrefixOf_iff_prefix.mpr (List.prefix_append D m), ?_⟩
  rw [List.drop_left]
  exact hm

lemma extractLoop_under (D : List Component) :
    ∀ (entries : List ZEntry),
      (extractLoop D entries).1.all (fun p => underDir D p) = true ∧
      (extractLoop D entries).2.all (fun p => underDir D p) = true := by
  intro entries
  induction entries with
  | nil => exact ⟨rfl, rfl⟩
  | cons e rest ih =>
    obtain ⟨ih1, ih2⟩ := ih
    have hu : underDir D (D ++ mangledName e.name) = true :=
      underDir_append D (mangledName e.name) (mangledName_all_normal e.name)
    rw [extractLoop]
    split
    · exact ⟨ih1, ih2⟩
    · split
      · exact ⟨ih1, by rw [List.all_cons, hu, ih2]; rfl⟩
      · split
        · exact ⟨ih1, by rw [List.all_cons, hu, ih2]; rfl⟩
        · split
          · exact ⟨ih1, by rw [List.all_cons, hu, ih2]; rfl⟩
          · exact ⟨by rw [List.all_cons, hu, ih1]; rfl,
              by rw [List.all_cons, hu, ih2]; rfl⟩

/-- Claim C1 (confirmed): in every run of the zip extraction, every
path the entry loop writes to — directories created and files
written, including the returned extracted-file paths — lies
syntactically under the output directory with only plain-name
components after it, and any such path resolves to the resolution of
the output directory extended by those plain names: no entry is ever
written to a path that resolves outside the output directory, however
the archive names its entries. -/
theorem c1_zip_paths (env : ZipEnv) (D : List Component) :
    (runZip env D).touched.all (fun p => underDir D p) = true ∧
    (∀ fs, (runZip env D).result = .ok fs →
      fs.all (fun p => underDir D p) = true) ∧
    (∀ p, underDir D p = true →
      resolve p = resolve D ++ p.drop D.length) := by
  refine ⟨?_, ?_, ?_⟩
  · rw [runZip]
    split
    · rfl
    · split
      · rfl
      · split
        · rfl
        · split
          · rfl
          · split
            · rfl
            · split
              · rfl
              · exact (extractLoop_under D env.entries).2
  · intro fs hfs
    rw [runZip] at hfs
    split at hfs
    · exact absurd hfs (by simp)
    · split at hfs
      · exact absurd hfs (by simp)
      · split at hfs
        · exact absurd hfs (by simp)
        · split at hfs
          · exact absurd hfs (by simp)
          · split at hfs
            · exact absurd hfs (by simp)
            · split at hfs
              · exact absurd hfs (by simp)
              · have : fs = (extractLoop D env.entries).1 := by
                  cases hfs; rfl
                rw [this]
                exact (extractLoop_under D env.entries).1
  · intro p h
    rw [underDir, Bool.and_eq_true] at h
    obtain ⟨h1, h2⟩ := h
    obtain ⟨t, ht⟩ := List.isPrefixOf_iff_prefix.mp h1
    subst ht
    rw [List.drop_left] at h2 ⊢
    rw [resolve, resolve, List.foldl_append]
    exact foldl_resolveStep_normal t (List.foldl resolveStep [] D) h2

/-- A successful run over an archive holding the single hostile entry
dot-dot slash dot-dot slash etc slash passwd. -/
def evilEnv : ZipEnv :=
  ⟨true, true, true, true, true, true,
    [⟨true, false,
      [.parentDir, .parentDir, .normal "etc", .normal "passwd"],
      true, true⟩], true⟩

/-- Witness for c1_zip_paths: the hostile entry is neutralized to
out/etc/passwd, which stays under the output directory out. -/
theorem c1_zip_paths_witness :
    (runZip evilEnv [Component.normal "out"]).touched =
      [[Component.normal "out", Component.normal "etc",
        Component.normal "passwd"]] ∧
    (runZip evilEnv [Component.normal "out"]).touched.all
      (fun p => underDir [Component.normal "out"] p) = true ∧
    resolve [Component.normal "out", Component.normal "etc",
        Component.normal "passwd"] =
      resolve [Component.normal "out"] ++
        [Component.normal "etc", Component.normal "passwd"] :=
  ⟨by decide, (c1_zip_paths evilEnv [Component.normal "out"]).1,
    by
      have h := (c1_zip_paths evilEnv [Component.normal "out"]).2.2
        [Component.normal "out", Component.normal "etc",
          Component.normal "passwd"] (by decide)
      simpa using h⟩

/-- A zip run in which the temporary file is created but the write of
the downloaded bytes fails. -/
def leakZipEnv : ZipEnv := ⟨true, true, true, false, true, true, [], true⟩

/-- A tar run in which everything succeeds up to the tar command,
which exits with a non-zero status. -/
def leakTarEnv : TarEnv := ⟨true, true, true, true, true, false, true⟩

/-- Claim C2, as frozen, is false on the code: both strategies have
exit paths taken after the temporary file was created on which its
deletion is never attempted. In the zip strategy, a failing write of
the downloaded bytes returns the error with the temp file in place; in
the tar strategy, a tar command exiting non-zero does the same. -/
theorem c2_counterexample :
    (runZip leakZipEnv []).tempCreated = true ∧
    (runZip leakZipEnv []).removeAttempted = false ∧
    (runZip leakZipEnv []).result = .error () ∧
    (runTar leakTarEnv).tempCreated = true ∧
    (runTar leakTarEnv).removeAttempted = false ∧
    (runTar leakTarEnv).result = .error () := by
  refine ⟨by decide, by decide, by decide, by decide, by decide, by decide⟩

/-- Claim C2 (amended): each strategy attempts the best-effort
deletion of its temporary file exactly on the runs where every step
up to and including the extraction phase succeeded (for zip: download,
directory creation, temp creation, write, re-open, archive parse —
per-entry failures inside the loop do not matter; for tar.gz: directory
creation, download, temp creation, write, tar spawn and zero exit);
on those runs the operation returns success regardless of whether the
deletion itself succeeds, and the deletion outcome never influences
the returned result. On error exits taken after the temporary file was
created, the function returns the error without attempting deletion. -/
theorem c2_cleanup (ze : ZipEnv) (te : TarEnv) (D : List Component) :
    ((runZip ze D).removeAttempted =
      (ze.downloadOk && ze.createDirOk && ze.createTempOk && ze.writeOk &&
        ze.openOk && ze.archiveOk)) ∧
    ((runZip ze D).removeAttempted = true →
      (runZip ze D).result = .ok (extractLoop D ze.entries).1) ∧
    ((runZip ze D).tempCreated = true → (runZip ze D).removeAttempted = false →
      (runZip ze D).result = .error ()) ∧
    ((runTar te).removeAttempted =
      (te.createDirOk && te.downloadOk && te.createTempOk && te.writeOk &&
        te.spawnOk && te.exitOk)) ∧
    ((runTar te).removeAttempted = true →
      (runTar te).result = .ok ["Extracted files successfully."]) ∧
    ((runTar te).tempCreated = true → (runTar te).removeAttempted = false →
      (runTar te).result = .error ()) ∧
    (runZip ⟨ze.downloadOk, ze.createDirOk, ze.createTempOk, ze.writeOk,
        ze.openOk, ze.archiveOk, ze.entries, false⟩ D = runZip ze D) ∧
    (runTar ⟨te.createDirOk, te.downloadOk, te.createTempOk, te.writeOk,
        te.spawnOk, te.exitOk, false⟩ = runTar te) := by
  obtain ⟨d, cd, ct, w, o, a, ent, r⟩ := ze
  obtain ⟨tcd, td, tct, tw, ts, tex, tr⟩ := te
  refine ⟨?_, ?_, ?_, ?_, ?_, ?_, rfl, rfl⟩
  · cases d <;> cases cd <;> cases ct <;> cases w <;> cases o <;> cases a <;>
      simp [runZip]
  · cases d <;> cases cd <;> cases ct <;> cases w <;> cases o <;> cases a <;>
      simp [runZip]
  · cases d <;> cases cd <;> cases ct <;> cases w <;> cases o <;> cases a <;>
      simp [runZip]
  · cases tcd <;> cases td <;> cases tct <;> cases tw <;> cases ts <;>
      cases tex <;> simp [runTar]
  · cases tcd <;> cases td <;> cases tct <;> cases tw <;> cases ts <;>
      cases tex <;> simp [runTar]
  · cases tcd <;> cases td <;> cases tct <;> cases tw <;> cases ts <;>
      cases tex <;> simp [runTar]

/-- A fully successful zip run whose deletion of the temp file fails. -/
def okZipEnv : ZipEnv := ⟨true, true, true, true, true, true, [], false⟩

/-- A fully successful tar run whose deletion of the temp file fails. -/
def okTarEnv : TarEnv := ⟨true, true, true, true, true, true, false⟩

/-- Witness for c2_cleanup: on fully successful runs deletion is
attempted and the result is a success even though the deletion itself
fails. -/
theorem c2_cleanup_witness :
    (runZip okZipEnv []).removeAttempted = true ∧
    (runZip okZipEnv []).result = .ok [] ∧
    (runTar okTarEnv).removeAttempted = true ∧
    (runTar okTarEnv).result = .ok ["Extracted files successfully."] :=
  ⟨by decide,
    (c2_cleanup okZipEnv okTarEnv []).2.1 (by decide),
    by decide,
    (c2_cleanup okZipEnv okTarEnv []).2.2.2.2.1 (by decide)⟩

/-- The health-check scopes of HealthCheckType
(src/services/health_service.rs lines 11-16). -/
inductive HScope where
  | all
  | s3
  | postgres
  | redis
  deriving Repr, DecidableEq

/-- Embeds HealthCheckType::get_success_message
(src/services/health_service.rs lines 24-31). -/
def successMessage : HScope → String
  | .all => "All services are healthy"
  | .s3 => "S3 is healthy"
  | .postgres => "PostgreSQL is healthy"
  | .redis => "Redis is healthy"

/-- The environment of one health-check request: the cached status if
the Redis read hits (a failed or missing read is a miss for the
caller), the outcome of each dependency probe (none is success, some
carries the error text), and the outcome of the cache write. -/
structure HEnv where
  cachedStatus : Option String
  s3Probe : Option String
  postgresProbe : Option String
  redisProbe : Option String
  cacheWriteErr : Option String
  deriving Repr, DecidableEq

/-- Embeds HealthCheckType::check_health
(src/services/health_service.rs lines 43-67): the probes for the
requested scope run sequentially, the first failure short-circuits
with a message naming the failing dependency. -/
def check_health (env : HEnv) : HScope → Except String Unit
  | .all =>
    match env.s3Probe with
    | some e => .error ("S3 Health Check Failed: " ++ e)
    | none =>
      match env.postgresProbe with
      | some e => .error ("PostgreSQL Health Check Failed: " ++ e)
      | none =>
        match env.redisProbe with
        | some e => .error ("Redis Health Check Failed: " ++ e)
        | none => .ok ()
  | .s3 =>
    match env.s3Probe with
    | some e => .error ("S3 Health Check Failed: " ++ e)
    | none => .ok ()
  | .postgres =>
    match env.postgresProbe with
    | some e => .error ("PostgreSQL Health Check Failed: " ++ e)
    | none => .ok ()
  | .redis =>
    match env.redisProbe with
    | some e => .error ("Redis Health Check Failed: " ++ e)
    | none => .ok ()

/-- Embeds perform_health_check (src/services/health_service.rs
lines 77-103): a cache hit is returned at once; otherwise the probes
run, and on success the result is cached — a failing cache write makes
the function return 500 with a cache-failure message instead of the
success response; a probe failure returns 500 with the probe error. -/
def perform_health_check (env : HEnv) (scope : HScope) : Nat × String :=
  match env.cachedStatus with
  | some cached => (200, cached)
  | none =>
    match check_health env scope with
    | .ok _ =>
      match env.cacheWriteErr with
      | some e => (500, "Failed to cache health check status: " ++ e)
      | none => (200, successMessage scope)
    | .error e => (500, e)

/-- An environment with a cache miss, all probes healthy, and a
failing cache write. -/
def c4Env : HEnv := ⟨none, none, none, none, some "boom"⟩

/-- Claim C4, as frozen, is false on the code: with the probe
succeeding and the cache write failing, perform_health_check returns
500 with a cache-failure message, not the success status and
message. -/
theorem c4_counterexample :
    check_health c4Env .s3 = .ok () ∧
    perform_health_check c4Env .s3 ≠ (200, successMessage .s3) ∧
    perform_health_check c4Env .s3 =
      (500, "Failed to cache health check status: boom") := by
  refine ⟨rfl, by decide, rfl⟩

/-- Claim C4 (amended): on a cache miss, when the requested probes
succeed but the subsequent cache write of the success message fails,
the health check returns status 500 carrying a failed-to-cache message
with the write error appended — the failure to memoize does fail the
health response. -/
theorem c4_cache_write_failure (env : HEnv) (scope : HScope) (e : String) :
    env.cachedStatus = none →
    check_health env scope = .ok () →
    env.cacheWriteErr = some e →
    perform_health_check env scope =
      (500, "Failed to cache health check status: " ++ e) := by
  intro h1 h2 h3
  simp [perform_health_check, h1, h2, h3]

/-- Witness for c4_cache_write_failure at the all-healthy environment
whose cache write fails with the text boom. -/
theorem c4_cache_write_failure_witness :
    perform_health_check c4Env .s3 =
      (500, "Failed to cache health check status: boom") :=
  c4_cache_write_failure c4Env .s3 "boom" rfl rfl rfl

/-- The environment of one view_codebase_handler request
(src/controllers/file_controller.rs lines 122-166): whether the local
directory exists, the result of the cache read (error means the read
itself failed), the result of the cache write performed by cache_files
(none is success), and the result of the download-and-extract step. -/
structure VEnv where
  localExists : Bool
  cacheGet : Except Unit (Option String)
  cacheFilesErr : Option String
  extract : Except String (List String)
  deriving Repr, DecidableEq

/-- A response body of the retrieval handler. -/
inductive RespBody where
  | cachedFile (s : String)
  | files (fs : List String)
  | errorMsg (s : String)
  deriving Repr, DecidableEq

/-- Outcome of a handler invocation: an HTTP response, or a panic of
the handler task (the source unwraps the backfill cache write). -/
inductive HandlerOutcome where
  | response (status : Nat) (body : RespBody)
  | panicked
  deriving Repr, DecidableEq

/-- Embeds view_codebase_handler (src/controllers/file_controller.rs
lines 122-166). The cache_files collaborator is not part of the
sources; modelled from the spec, a successful write stores the file
list under the key file_cache: followed by the bundle name, and the
second result component records the writes that succeeded. When the
local directory exists and the cache read returns a hit the cached
file is returned; on a miss the handler writes the single-element list
holding the local directory path and returns it — but the write result
is unwrapped, so a failing write panics the handler; a failing cache
read returns 500. Without a local directory, extraction runs, a cache
write failure after successful extraction returns 500, and the
extracted list is returned otherwise. -/
def view_codebase_handler (env : VEnv) (name : String) :
    HandlerOutcome × List (String × List String) :=
  if env.localExists then
    match env.cacheGet with
    | .ok (some cached) => (.response 200 (.cachedFile cached), [])
    | .ok none =>
      match env.cacheFilesErr with
      | none =>
        (.response 200 (.files ["./competitions/" ++ name]),
          [("file_cache:" ++ name, ["./competitions/" ++ name])])
      | some _ => (.panicked, [])
    | .error _ =>
      (.response 500 (.errorMsg "Failed to retrieve cached file"), [])
  else
    match env.extract with
    | .ok fs =>
      match env.cacheFilesErr with
      | none => (.response 200 (.files fs), [("file_cache:" ++ name, fs)])
      | some e => (.response 500 (.errorMsg e), [])
    | .error e => (.response 500 (.errorMsg e), [])

/-- A LocalPresent request with a cache miss whose backfill cache
write fails. -/
def c5PanicEnv : VEnv := ⟨true, .ok none, some "redis down", .ok []⟩

/-- Claim C5, as frozen, is false on the code: on the LocalPresent
path with a cache miss, the backfill cache write's result is
unwrapped, so a failing write panics the handler instead of returning
the single-element result as a success. -/
theorem c5_counterexample :
    (view_codebase_handler c5PanicEnv "demo").1 = .panicked ∧
    (view_codebase_handler c5PanicEnv "demo").1 ≠
      .response 200 (.files ["./competitions/demo"]) ∧
    (view_codebase_handler c5PanicEnv "demo").2 = [] := by
  refine ⟨rfl, by decide, rfl⟩

/-- Claim C5 (amended): on the LocalPresent path with a cache miss,
when the backfill cache write succeeds the handler stores the
single-element list holding the local directory path under the bundle's
cache key and returns that list with status 200 — an on-demand
backfill, not a failure; but when the backfill cache write fails the
handler panics instead of returning a response, because the write
result is unwrapped. -/
theorem c5_backfill (env : VEnv) (name : String) :
    (env.localExists = true → env.cacheGet = .ok none →
      env.cacheFilesErr = none →
      view_codebase_handler env name =
        (.response 200 (.files ["./competitions/" ++ name]),
          [("file_cache:" ++ name, ["./competitions/" ++ name])])) ∧
    (env.localExists = true → env.cacheGet = .ok none →
      ∀ e, env.cacheFilesErr = some e →
        (view_codebase_handler env name).1 = .panicked) := by
  constructor
  · intro h1 h2 h3
    simp [view_codebase_handler, h1, h2, h3]
  · intro h1 h2 e h3
    simp [view_codebase_handler, h1, h2, h3]

/-- A LocalPresent request with a cache miss whose backfill write
succeeds. -/
def c5OkEnv : VEnv := ⟨true, .ok none, none, .ok []⟩

/-- Witness for c5_backfill: the successful backfill returns the
local directory path with status 200 and records the cache write. -/
theorem c5_backfill_witness :
    view_codebase_handler c5OkEnv "demo" =
      (.response 200 (.files ["./competitions/demo"]),
        [("file_cache:demo", ["./competitions/demo"])]) := by
  have h := (c5_backfill c5OkEnv "demo").1 rfl rfl rfl
  simpa using h

/-- The two archive container formats (spec §3 ArchiveFormat), with
their canonical storage-key suffixes. -/
inductive ArchiveFormat where
  | zip
  | tarGz
  deriving Repr, DecidableEq

/-- The canonical suffix each format appends to a base name. -/
def ArchiveFormat.suffix : ArchiveFormat → String
  | .zip => ".zip"
  | .tarGz => ".tar.gz"

/-- Modelled from the spec: the archive-type detector (spec §4.3) is
part of download_and_extract_archive, whose body is not in the
sources (only its caller, view_codebase_handler, is). It tries the
formats in the fixed order Zip before TarGz, probing the Object
Store's existence check — S3Client::file_exists
(src/clients/s3_client.rs lines 108-113), modelled as the store's
existence predicate — with baseName plus the format suffix, and
returns the first hit; when neither key exists it fails with
NotFound. -/
def detect (store : String → Bool) (baseName : String) :
    Except Unit (String × ArchiveFormat) :=
  if store (baseName ++ ArchiveFormat.zip.suffix) then
    .ok (baseName ++ ArchiveFormat.zip.suffix, .zip)
  else if store (baseName ++ ArchiveFormat.tarGz.suffix) then
    .ok (baseName ++ ArchiveFormat.tarGz.suffix, .tarGz)
  else
    .error ()

/-- Claim C9 (confirmed): detection probes Zip before TarGz on
baseName plus the format suffix and returns the first hit — in
particular whenever the zip key exists (also when the tar.gz key
exists too) the zip variant is returned; the tar.gz variant is
returned only when the zip key is absent; and when neither key exists
detection fails with NotFound. -/
theorem c9_detect_order (store : String → Bool) (base : String) :
    (store (base ++ ".zip") = true →
      detect store base = .ok (base ++ ".zip", .zip)) ∧
    (store (base ++ ".zip") = false → store (base ++ ".tar.gz") = true →
      detect store base = .ok (base ++ ".tar.gz", .tarGz)) ∧
    (store (base ++ ".zip") = false → store (base ++ ".tar.gz") = false →
      detect store base = .error ()) := by
  refine ⟨?_, ?_, ?_⟩
  · intro h1
    simp [detect, ArchiveFormat.suffix, h1]
  · intro h1 h2
    simp [detect, ArchiveFormat.suffix, h1, h2]
  · intro h1 h2
    simp [detect, ArchiveFormat.suffix, h1, h2]

/-- Witness for c9_detect_order: with both foo.zip and foo.tar.gz
present the zip variant is detected, and with an empty store
detection fails. -/
theorem c9_detect_order_witness :
    detect (fun k => k == "foo.zip" || k == "foo.tar.gz") "foo" =
      .ok ("foo.zip", .zip) ∧
    detect (fun _ => false) "foo" = .error () :=
  ⟨(c9_detect_order (fun k => k == "foo.zip" || k == "foo.tar.gz") "foo").1
      (by decide),
    (c9_detect_order (fun _ => false) "foo").2.2 rfl rfl⟩

end Rustler
